import Mathlib

/-!
Verification of the model-emulator server core: a shallow embedding of
`server/litellm_client.py`, `server/openai_adapter.py` and `server/config.py`,
together with proofs of the behavioural properties stated for them.

Python dict/list/str/number/bool/None data is modelled by the `JVal` type,
with objects as association lists (Python dicts have unique keys, so
first-occurrence lookup coincides with dict lookup).  Stateful modules are
modelled by explicit state passing: the file system is a parameter holding the
parsed content (and, for the configuration file, the modification time) of the
backing JSON document, and each cache-mutating function returns the new cache
and file state.  I/O failure of a save is a boolean parameter, since it is
environmental.  The external LiteLLM completion call is a parameter of the
request handler (an `Except` value standing for the outcome of `chat`).
-/

set_option autoImplicit false

namespace ModelEmulator

/-- JSON-like values as handled by the Python server (dict / list / str /
int / bool / None).  Objects are association lists of string keys. -/
inductive JVal where
  | jnull : JVal
  | jbool (b : Bool) : JVal
  | jnum (n : Int) : JVal
  | jstr (s : String) : JVal
  | jarr (elems : List JVal) : JVal
  | jobj (fields : List (String × JVal)) : JVal
  deriving Repr

/-- A Python dict with string keys: an association list (keys unique). -/
abbrev JObj := List (String × JVal)

/-- Dict lookup, `d.get(k)` returning the value of the first matching key.
Python dicts have unique keys, so first-occurrence lookup is dict lookup. -/
def jlookup (m : JObj) (k : String) : Option JVal :=
  match m with
  | [] => none
  | (k₀, v) :: rest => if k₀ = k then some v else jlookup rest k

/-- `d.get(k, default)`. -/
def jgetD (m : JObj) (k : String) (d : JVal) : JVal :=
  (jlookup m k).getD d

/-- `k in d`. -/
def jhasKey (m : JObj) (k : String) : Bool :=
  (jlookup m k).isSome

/-- Python truthiness of a JSON value (`bool(v)`). -/
def jtruthy : JVal → Bool
  | .jnull => false
  | .jbool b => b
  | .jnum n => n != 0
  | .jstr s => s != ""
  | .jarr l => !l.isEmpty
  | .jobj l => !l.isEmpty

/-- Python dict assignment `d[k] = v`: replaces the value of an existing key
in place, otherwise appends the new key at the end (dict insertion order). -/
def jset (m : JObj) (k : String) (v : JVal) : JObj :=
  match m with
  | [] => [(k, v)]
  | (k₀, v₀) :: rest => if k₀ = k then (k₀, v) :: rest else (k₀, v₀) :: jset rest k v

/-- Python `{**a, **b}`: the keys of `a` in order, with values overridden by
`b` where present, followed by the keys of `b` that are not in `a`. -/
def mergeDicts (a b : JObj) : JObj :=
  a.map (fun p => (p.1, (jlookup b p.1).getD p.2)) ++
    b.filter (fun p => (jlookup a p.1).isNone)

/-- Whether `pat` occurs as a contiguous sublist of the second list. -/
def containsSub (pat : List Char) : List Char → Bool
  | [] => pat.isEmpty
  | c :: rest => pat.isPrefixOf (c :: rest) || containsSub pat rest

/-- Substring test, Python `pat in s`. -/
def strContains (s pat : String) : Bool :=
  containsSub pat.data s.data

/-- `any(term in msg for term in terms)`. -/
def containsAny (msg : String) (terms : List String) : Bool :=
  terms.any (fun t => strContains msg t)

/-- `s.lower()`, character by character (the messages concerned are ASCII). -/
def strLower (s : String) : String :=
  String.mk (s.data.map Char.toLower)

/-- `s.strip()`: leading and trailing whitespace removed. -/
def pyStrip (s : String) : String :=
  String.mk (((s.data.dropWhile Char.isWhitespace).reverse.dropWhile
    Char.isWhitespace).reverse)

/-! ## `server/litellm_client.py` -/

/-- `estimate_tokens` (litellm_client.py:341-345):
0 for a falsy string, else `ceil(len(text) / 4)`. -/
def estimate_tokens (text : String) : Nat :=
  if text = "" then 0 else (text.length + 3) / 4

/-- The exact-match network error codes of `classify_error`. -/
def network_codes : List String :=
  ["ECONNREFUSED", "ENOTFOUND", "ETIMEDOUT", "ECONNRESET", "ENETUNREACH", "EAI_AGAIN"]

/-- The substring terms of the 503 rule of `classify_error`. -/
def network_terms : List String :=
  ["network", "timeout", "connect", "offline", "unavailable", "empty response"]

/-- The substring terms of the 401 rule of `classify_error`. -/
def auth_terms : List String :=
  ["auth", "token", "unauthorized", "api key"]

/-- The substring terms of the 403 rule of `classify_error`. -/
def permission_terms : List String :=
  ["permission", "forbidden"]

/-- The substring terms of the 429 rule of `classify_error`. -/
def rate_terms : List String :=
  ["rate", "limit", "quota"]

/-- The substring terms of the 400 rule of `classify_error`. -/
def invalid_terms : List String :=
  ["invalid", "bad request"]

/-- `classify_error` (litellm_client.py:348-380).  `message` is `str(error)`
and `code` is `getattr(error, "code", "") or ""`.  The rules are checked in
source order; the first match wins. -/
def classify_error (message : String) (code : String) : Nat × String :=
  let msg := strLower message
  if network_codes.contains code then (503, "service_unavailable")
  else if containsAny msg network_terms then (503, "service_unavailable")
  else if containsAny msg auth_terms then (401, "authentication_error")
  else if containsAny msg permission_terms then (403, "permission_error")
  else if containsAny msg rate_terms then (429, "rate_limit_error")
  else if containsAny msg invalid_terms then (400, "invalid_request_error")
  else if strContains msg "not found" then (404, "not_found_error")
  else (500, "internal_server_error")

/-! ## `server/openai_adapter.py` -/

/-- The usage dict built by `chat` / `handle_chat_completion`. -/
structure ChatUsage where
  prompt_tokens : Nat
  completion_tokens : Nat
  total_tokens : Nat
  deriving Repr

/-- The `{"text": ..., "usage": ...}` result of a successful `chat` call
(`usage` is `None` when the backend reported no usage). -/
structure ChatRes where
  text : String
  usage : Option ChatUsage
  deriving Repr

/-- A raised Python exception as seen by the adapter: its `str()` message and
its optional `code` attribute. -/
structure PyErr where
  msg : String
  code : Option String
  deriving Repr

/-- One entry of the `choices` array of a chat-completion response body. -/
structure Choice where
  index : Nat
  role : String
  content : String
  finish_reason : String
  deriving Repr

/-- The JSON body of an adapter response: either the error shape built by
`create_error_response` or the OpenAI-shaped success body. -/
inductive RespBody where
  | err (message : String) (etype : String) (code : Option String) : RespBody
  | completion (id : String) (objectTag : String) (created : Nat) (model : JVal)
      (choices : List Choice) (usage : ChatUsage) : RespBody
  deriving Repr

/-- The `{statusCode, body}` pair returned by `handle_chat_completion`. -/
structure Response where
  statusCode : Nat
  body : RespBody
  deriving Repr

/-- The error type of a response, when its body has the error shape. -/
def Response.errorType (r : Response) : Option String :=
  match r.body with
  | .err _ t _ => some t
  | .completion _ _ _ _ _ _ => none

/-- The usage block of a response, when its body has the success shape. -/
def Response.usageBlock (r : Response) : Option ChatUsage :=
  match r.body with
  | .err _ _ _ => none
  | .completion _ _ _ _ _ u => some u

/-- `create_error_response` (openai_adapter.py:21-33); `msg` is `str(error)`
and `code` its optional `code` attribute. -/
def create_error_response (msg : String) (code : Option String)
    (statusCode : Nat) (etype : String) : Response :=
  { statusCode := statusCode,
    body := .err (if msg = "" then "An error occurred" else msg) etype code }

/-- `generate_completion_id` (openai_adapter.py:15-18), with the current unix
milliseconds and the 7 random characters as parameters. -/
def generate_completion_id (nowMs : Nat) (rand7 : String) : String :=
  "chatcmpl-" ++ toString nowMs ++ "-" ++ rand7

/-- Whether `msg.get("content")` is Python `None`: the key is absent or its
value is JSON null. -/
def contentIsNone (m : JObj) : Bool :=
  match jlookup m "content" with
  | none => true
  | some .jnull => true
  | some _ => false

/-- The per-message checks of the validation loop (openai_adapter.py:66-70). -/
def validate_message (v : JVal) : Except String Unit :=
  match v with
  | .jobj m =>
    if !(jhasKey m "role") || contentIsNone m then
      .error "Each message must have role and content fields"
    else .ok ()
  | _ => .error "Each message must be an object"

/-- Runs `validate_message` over the list, stopping at the first failure. -/
def validate_messages : List JVal → Except String Unit
  | [] => .ok ()
  | v :: rest =>
    match validate_message v with
    | .error e => .error e
    | .ok _ => validate_messages rest

/-- `validate_request` (openai_adapter.py:45-72).  Every `ValidationError`
raised there uses the default status 400 and type invalid_request_error, so
only the message is carried.  `body.get("messages") is None` holds exactly
when the key is absent or its value is JSON null. -/
def validate_request (body : JObj) : Except String Unit :=
  if body.isEmpty then .error "Request body is required"
  else
    let modelBad :=
      match jgetD body "model" .jnull with
      | .jstr s => pyStrip s == ""
      | _ => true
    if modelBad then .error "model field is required"
    else if !(jtruthy (jgetD body "messages" .jnull)) &&
        !(jtruthy (jgetD body "prompt" .jnull)) then
      .error "Either messages or prompt field is required"
    else
      match jlookup body "messages" with
      | none => .ok ()
      | some .jnull => .ok ()
      | some (.jarr msgs) =>
        if msgs.isEmpty then .error "messages must be a non-empty array"
        else validate_messages msgs
      | some _ => .error "messages must be a non-empty array"

/-- The elements of a validated `messages` array as objects.  After
`validate_request` succeeds on a truthy `messages` value, the value is a
non-empty array whose elements are all objects, so the fallbacks here are
never reached on the paths the handler takes. -/
def objElems (v : JVal) : List JObj :=
  match v with
  | .jarr l =>
    l.map (fun e =>
      match e with
      | .jobj m => m
      | _ => [])
  | _ => []

/-- The `input_messages` built by the handler (openai_adapter.py:121-125):
the request's `messages` if truthy, else a single user message wrapping
`prompt`. -/
def inputMessagesOf (body : JObj) : List JObj :=
  let messagesVal := jgetD body "messages" .jnull
  if jtruthy messagesVal then objElems messagesVal
  else [[("role", .jstr "user"), ("content", jgetD body "prompt" .jnull)]]

/-- `m.get("content", "")` as used by the `" ".join` of the usage estimate.
A present non-string value (including null, which validation has excluded)
makes `str.join` raise `TypeError`, modelled as `none`. -/
def msgContentStr (m : JObj) : Option String :=
  match jlookup m "content" with
  | none => some ""
  | some (.jstr s) => some s
  | some _ => none

/-- `" ".join(m.get("content", "") for m in input_messages)`. -/
def joinedContents (input_messages : List JObj) : Option String :=
  (input_messages.mapM msgContentStr).map (fun l => String.intercalate " " l)

/-- The usage computation of the handler (openai_adapter.py:130-141): the
backend usage verbatim when present (a non-empty dict, hence truthy), else
the `estimate_tokens` estimate of the space-joined message contents and of
the returned text.  The `.error` branch is the `TypeError` that `" ".join`
raises on a present non-string content value; CPython's message for it
contains no classifier keyword. -/
def computeUsage (input_messages : List JObj) (result : ChatRes) :
    Except PyErr ChatUsage :=
  match result.usage with
  | some u => .ok u
  | none =>
    match joinedContents input_messages with
    | some prompt_text =>
      let pt := estimate_tokens prompt_text
      let ct := estimate_tokens result.text
      .ok { prompt_tokens := pt, completion_tokens := ct, total_tokens := pt + ct }
    | none => .error { msg := "sequence item 0: expected str instance", code := none }

/-- Python `a or b` on JSON values: `a` if truthy, else `b`. -/
def pyOr (a b : JVal) : JVal :=
  if jtruthy a then a else b

/-- The arguments of the `chat` call the handler builds
(openai_adapter.py:90-128): provider/model resolved from the configuration
with defaults, the input messages, and the optional passthrough options.
`temperature` is included when `body.get("temperature")` is not `None`;
`max_tokens` is `body.get("max_tokens") or body.get("max_completion_tokens")`,
included when that is not `None`. -/
structure ChatCall where
  provider : JVal
  model : JVal
  messages : List JObj
  temperature : Option JVal
  max_tokens : Option JVal
  deriving Repr

/-- `handle_chat_completion` (openai_adapter.py:75-180).  `active` is the
current `is_emulator_active()` flag, `config` the `get_config()` document,
`nowMs`/`rand7` feed id generation, and `chatOutcome` is the outcome of the
external `chat` call (success value or raised exception).  The second
component of the result is the `chat` call the handler issued, or `none`
when the Completion capability was never invoked.  Log calls are external
side effects with no influence on the returned value and are omitted. -/
def handle_chat_completion (active : Bool) (config : JObj) (nowMs : Nat)
    (rand7 : String) (body : JObj) (chatOutcome : Except PyErr ChatRes) :
    Response × Option ChatCall :=
  if !active then
    (create_error_response
      "Emulator is not active. Start it from the configuration UI."
      none 503 "service_unavailable", none)
  else
    match validate_request body with
    | .error msg => (create_error_response msg none 400 "invalid_request_error", none)
    | .ok _ =>
      let requested_model := jgetD body "model" (.jstr "")
      let temperature := jgetD body "temperature" .jnull
      let max_tokens :=
        pyOr (jgetD body "max_tokens" .jnull) (jgetD body "max_completion_tokens" .jnull)
      let input_messages := inputMessagesOf body
      let call : ChatCall :=
        { provider := jgetD config "provider" (.jstr "openai"),
          model := jgetD config "model" (.jstr "gpt-4"),
          messages := input_messages,
          temperature :=
            match temperature with
            | .jnull => none
            | v => some v,
          max_tokens :=
            match max_tokens with
            | .jnull => none
            | v => some v }
      match chatOutcome with
      | .error e =>
        let r := classify_error e.msg (e.code.getD "")
        (create_error_response e.msg e.code r.1 r.2, some call)
      | .ok result =>
        match computeUsage input_messages result with
        | .error e =>
          let r := classify_error e.msg (e.code.getD "")
          (create_error_response e.msg e.code r.1 r.2, some call)
        | .ok usage =>
          ({ statusCode := 200,
             body := .completion (generate_completion_id nowMs rand7)
               "chat.completion" (nowMs / 1000) requested_model
               [{ index := 0, role := "assistant", content := result.text,
                  finish_reason := "stop" }]
               usage }, some call)

/-! ## `server/config.py`

The three documents (configuration, models cache, saved presets) live in
three independent files.  A file is modelled as its modification time (where
the code consults it) together with its parsed content; `none` content means
the file exists but `json.load` fails (or, for the list-shaped documents,
yields a value of the wrong shape, which the code treats the same way). -/

/-- `generate_id` (config.py:32-35), with the current unix milliseconds and
the 6 random characters as parameters. -/
def generate_id (nowMs : Nat) (rand6 : String) : String :=
  "cfg-" ++ toString nowMs ++ "-" ++ rand6

/-- `get_default_config` (config.py:38-52). -/
def default_config : JObj :=
  [("port", .jnum 11434),
   ("provider", .jstr "openai"),
   ("model", .jstr "gpt-4"),
   ("apiKeyEnvVar", .jstr "OPENAI_API_KEY"),
   ("emulatorActive", .jbool false),
   ("lastConfig", .jnull),
   ("logging", .jobj [("enabled", .jbool true), ("logRequests", .jbool true),
      ("logErrors", .jbool true)])]

/-- The configuration file: its current modification time and its parsed
content (`none` = `json.load` raises `JSONDecodeError`).  The whole file is
`none` when it does not exist (`stat`/`open` raise `FileNotFoundError`). -/
structure CfgFile where
  mtime : Nat
  content : Option JObj
  deriving Repr

/-- The module-level cache of `config.py` for the configuration document:
`_cached_config` and `_config_mtime`. -/
structure CfgSt where
  cached : Option JObj
  mtimeSeen : Option Nat
  deriving Repr

/-- `get_config` (config.py:55-71).  With a populated cache it first `stat`s
the file: a missing file raises `FileNotFoundError` and falls to the default
branch; an unchanged mtime returns the cache; otherwise the mtime fencepost
is advanced and the file re-read (a parse failure at that point leaves the
stale cache in place with the advanced fencepost).  With an empty cache the
file is read directly. -/
def get_config (fs : Option CfgFile) (st : CfgSt) : JObj × CfgSt :=
  match st.cached with
  | some c =>
    match fs with
    | none => (default_config, st)
    | some f =>
      if st.mtimeSeen = some f.mtime then (c, st)
      else
        match f.content with
        | some doc => (doc, { cached := some doc, mtimeSeen := some f.mtime })
        | none => (default_config, { cached := some c, mtimeSeen := some f.mtime })
  | none =>
    match fs with
    | none => (default_config, st)
    | some f =>
      match f.content with
      | some doc => (doc, { cached := some doc, mtimeSeen := some f.mtime })
      | none => (default_config, st)

/-- `update_config` (config.py:74-86): merge `updates` over `get_config()`,
write the file, and on success cache the merged document and the file's new
mtime.  `saveOk` is whether the write succeeds and `newMtime` the mtime the
written file gets.  On failure the function returns `False` with the cache
as the inner `get_config` left it; the on-disk bytes after a failed write
are environment-dependent and not modelled further. -/
def update_config (fs : Option CfgFile) (st : CfgSt) (updates : JObj)
    (saveOk : Bool) (newMtime : Nat) : Bool × Option CfgFile × CfgSt :=
  let r := get_config fs st
  let merged := mergeDicts r.1 updates
  if saveOk then
    (true, some { mtime := newMtime, content := some merged },
      { cached := some merged, mtimeSeen := some newMtime })
  else (false, fs, r.2)

/-! ### Models cache (config.py:124-166) -/

/-- The models-cache file: modification time and parsed content (`none` =
unreadable, unparseable, or without a list-shaped value somewhere the code
requires one). -/
structure MFile where
  mtime : Nat
  content : Option JObj
  deriving Repr

/-- The `{"models": [], "lastUpdated": None}` miss result of
`get_models_cache`. -/
def models_empty : JObj :=
  [("models", .jarr []), ("lastUpdated", .jnull)]

/-- `get_models_cache` (config.py:124-141): a populated `_cached_models` is
returned unconditionally — the file (and in particular its mtime) is never
consulted again.  On an empty cache the file is read; the document is
accepted (and cached) only when its `models` value is a list, otherwise the
miss result is returned and the cache stays empty. -/
def get_models_cache (file : Option MFile) (cache : Option JObj) :
    JObj × Option JObj :=
  match cache with
  | some c => (c, some c)
  | none =>
    match file with
    | some f =>
      match f.content with
      | some doc =>
        match jlookup doc "models" with
        | some (.jarr _) => (doc, some doc)
        | _ => (models_empty, none)
      | none => (models_empty, none)
    | none => (models_empty, none)

/-- `save_models_cache` (config.py:152-166): writes
`{"lastUpdated": nowMs, "models": models}` and caches it on success. -/
def save_models_cache (file : Option MFile) (cache : Option JObj)
    (models : List JVal) (nowMs : Nat) (saveOk : Bool) (newMtime : Nat) :
    Bool × Option MFile × Option JObj :=
  let doc : JObj := [("lastUpdated", .jnum nowMs), ("models", .jarr models)]
  if saveOk then (true, some { mtime := newMtime, content := some doc }, some doc)
  else (false, file, cache)

/-! ### Saved configuration presets (config.py:169-247) -/

/-- The saved-configs file: `none` = missing; `some none` = present but
unreadable, unparseable, or not a JSON list; `some (some l)` = a list. -/
abbrev SavedFile := Option (Option (List JObj))

/-- `get_saved_configs` (config.py:169-186): a populated
`_cached_saved_configs` is returned as-is; otherwise a list-shaped file is
loaded and cached; otherwise a fresh empty list is returned without
populating the cache.  Whenever the returned cache is populated it holds the
very list object that is returned (Python aliasing), which the mutating
callers below rely on. -/
def get_saved_configs (file : SavedFile) (cache : Option (List JObj)) :
    List JObj × Option (List JObj) :=
  match cache with
  | some l => (l, some l)
  | none =>
    match file with
    | some (some l) => (l, some l)
    | some none => ([], none)
    | none => ([], none)

/-- The preset dict built by `add_saved_config` (config.py:205-211). -/
def new_preset (nowMs : Nat) (rand6 name provider model akev : String) : JObj :=
  [("id", .jstr (generate_id nowMs rand6)),
   ("name", .jstr name),
   ("provider", .jstr provider),
   ("model", .jstr model),
   ("apiKeyEnvVar", .jstr akev)]

/-- `add_saved_config` (config.py:202-213).  `configs.append(new_config)`
mutates the list object in place, and when the cache is populated it holds
that same object, so the appended list is visible through the cache even
when the subsequent save fails (`save_saved_configs` only assigns the cache
explicitly after a successful write, config.py:189-199).  The on-disk bytes
after a failed write are environment-dependent and not modelled further. -/
def add_saved_config (file : SavedFile) (cache : Option (List JObj))
    (nowMs : Nat) (rand6 name provider model akev : String) (saveOk : Bool) :
    Option JObj × SavedFile × Option (List JObj) :=
  let r := get_saved_configs file cache
  let newC := new_preset nowMs rand6 name provider model akev
  let configs₁ := r.1 ++ [newC]
  let cacheAfterAppend := r.2.map (fun _ => configs₁)
  if saveOk then (some newC, some (some configs₁), some configs₁)
  else (none, file, cacheAfterAppend)

/-- `c.get("id") == config_id`: Python equality of the `id` value with a
string, false for a missing or non-string value. -/
def presetIdMatches (c : JObj) (config_id : String) : Bool :=
  match jlookup c "id" with
  | some (.jstr s) => s == config_id
  | _ => false

/-- Applies `f` to the first list element satisfying `p`, keeping the rest:
the in-place mutation of the dict that `next(...)` found. -/
def updateFirst (p : JObj → Bool) (f : JObj → JObj) : List JObj → List JObj
  | [] => []
  | c :: rest => if p c then f c :: rest else c :: updateFirst p f rest

/-- `if new_name:` — a Python truthiness check on an `Optional[str]`:
false for `None` and for the empty string. -/
def pyTruthyStr : Option String → Bool
  | none => false
  | some s => s != ""

/-- One field update of `update_saved_config` guarded by truthiness
(the `name`/`provider`/`model` fields, config.py:224-229). -/
def setIfTruthy (c : JObj) (k : String) (v : Option String) : JObj :=
  match v with
  | some s => if s = "" then c else jset c k (.jstr s)
  | none => c

/-- The `apiKeyEnvVar` update of `update_saved_config`, guarded only by
`is not None` (config.py:230-231). -/
def setIfSome (c : JObj) (k : String) (v : Option String) : JObj :=
  match v with
  | some s => jset c k (.jstr s)
  | none => c

/-- The field updates applied to the preset `update_saved_config` found. -/
def applyPresetUpdates (new_name provider model api_key_env_var : Option String)
    (c : JObj) : JObj :=
  setIfSome (setIfTruthy (setIfTruthy (setIfTruthy c "name" new_name)
    "provider" provider) "model" model) "apiKeyEnvVar" api_key_env_var

/-- `update_saved_config` (config.py:216-233): `False` when no preset has the
given id; otherwise the found dict is mutated in place (visible through a
populated cache, by the same aliasing as in `add_saved_config`) and the list
is saved. -/
def update_saved_config (file : SavedFile) (cache : Option (List JObj))
    (config_id : String) (new_name provider model api_key_env_var : Option String)
    (saveOk : Bool) : Bool × SavedFile × Option (List JObj) :=
  let r := get_saved_configs file cache
  if (r.1.find? (fun c => presetIdMatches c config_id)).isSome then
    let configs₁ := updateFirst (fun c => presetIdMatches c config_id)
      (applyPresetUpdates new_name provider model api_key_env_var) r.1
    let cacheAfterMutation := r.2.map (fun _ => configs₁)
    if saveOk then (true, some (some configs₁), some configs₁)
    else (false, file, cacheAfterMutation)
  else (false, file, r.2)

/-- `delete_saved_config` (config.py:236-242): filters out every config with
the given id into a fresh list (no aliasing with the cache), `False` when
nothing was removed, else saves. -/
def delete_saved_config (file : SavedFile) (cache : Option (List JObj))
    (config_id : String) (saveOk : Bool) : Bool × SavedFile × Option (List JObj) :=
  let r := get_saved_configs file cache
  let filtered := r.1.filter (fun c => !(presetIdMatches c config_id))
  if filtered.length = r.1.length then (false, file, r.2)
  else if saveOk then (true, some (some filtered), some filtered)
  else (false, file, r.2)

/-- `get_saved_config_by_id` (config.py:245-247): the first stored preset
whose id equals `config_id`. -/
def get_saved_config_by_id (file : SavedFile) (cache : Option (List JObj))
    (config_id : String) : Option JObj × Option (List JObj) :=
  let r := get_saved_configs file cache
  (r.1.find? (fun c => presetIdMatches c config_id), r.2)

/-! ## Lookup lemmas for association-list dicts -/

theorem jlookup_jset_self (m : JObj) (k : String) (v : JVal) :
    jlookup (jset m k v) k = some v := by
  induction m with
  | nil => simp [jset, jlookup]
  | cons p rest ih =>
    obtain ⟨k₀, v₀⟩ := p
    by_cases h : k₀ = k <;> simp [jset, jlookup, h, ih]

theorem jlookup_jset_ne (m : JObj) (k k' : String) (v : JVal) (h : k' ≠ k) :
    jlookup (jset m k v) k' = jlookup m k' := by
  induction m with
  | nil => simp [jset, jlookup, Ne.symm h]
  | cons p rest ih =>
    obtain ⟨k₀, v₀⟩ := p
    by_cases hk : k₀ = k
    · subst hk
      simp [jset, jlookup, Ne.symm h]
    · simp [jset, jlookup, hk, ih]

theorem jlookup_append (l₁ l₂ : JObj) (k : String) :
    jlookup (l₁ ++ l₂) k = (jlookup l₁ k).or (jlookup l₂ k) := by
  induction l₁ with
  | nil => simp [jlookup]
  | cons p rest ih =>
    obtain ⟨k₀, v₀⟩ := p
    by_cases h : k₀ = k <;> simp [jlookup, h, ih]

theorem jlookup_map_override (a b : JObj) (k : String) :
    jlookup (a.map (fun p => (p.1, (jlookup b p.1).getD p.2))) k
      = (jlookup a k).map (fun v => (jlookup b k).getD v) := by
  induction a with
  | nil => simp [jlookup]
  | cons p rest ih =>
    obtain ⟨k₀, v₀⟩ := p
    by_cases h : k₀ = k
    · subst h; simp [jlookup]
    · simp [jlookup, h, ih]

theorem jlookup_filter_notin (a b : JObj) (k : String) :
    jlookup (b.filter (fun p => (jlookup a p.1).isNone)) k
      = if (jlookup a k).isNone then jlookup b k else none := by
  induction b with
  | nil => simp [jlookup]
  | cons p rest ih =>
    obtain ⟨k₀, v₀⟩ := p
    by_cases hk : k₀ = k
    · subst hk
      by_cases ha : (jlookup a k₀).isNone = true <;>
        simp [List.filter_cons, ha, jlookup, ih]
    · by_cases ha : (jlookup a k₀).isNone = true <;>
        simp [List.filter_cons, ha, jlookup, hk, ih]

/-- The characterising property of `{**a, **b}`: a key's value comes from `b`
when `b` has the key, else from `a`. -/
theorem jlookup_mergeDicts (a b : JObj) (k : String) :
    jlookup (mergeDicts a b) k = (jlookup b k).or (jlookup a k) := by
  unfold mergeDicts
  rw [jlookup_append, jlookup_map_override, jlookup_filter_notin]
  cases ha : jlookup a k <;> cases hb : jlookup b k <;> simp [ha, hb]

/-! ## Claims -/

/-- C3: for every request, while the emulator activation state is inactive,
`handle_chat_completion` returns status 503 with error type
service_unavailable and never invokes the Completion capability (the issued
chat call is `none`), whatever the request body and whatever the backend
would have answered. -/
theorem emulator_inactive_rejects_503 (config : JObj) (nowMs : Nat)
    (rand7 : String) (body : JObj) (chatOutcome : Except PyErr ChatRes) :
    handle_chat_completion false config nowMs rand7 body chatOutcome
      = ({ statusCode := 503,
           body := .err "Emulator is not active. Start it from the configuration UI."
             "service_unavailable" none }, none) := rfl

/-- C10: with a populated in-memory configuration cache, `get_config` on a
missing configuration file returns the compiled-in defaults (the stat's
file-not-found failure takes the fallback path), not the still-held cached
document, and leaves the cache state untouched. -/
theorem get_config_missing_file_returns_defaults (c : JObj) (mt : Option Nat) :
    get_config none { cached := some c, mtimeSeen := mt }
      = (default_config, { cached := some c, mtimeSeen := mt }) := rfl

/-- C7: `update_config` merges the partial update over the current
`get_config` result by shallow key overwrite (key by key, the update's value
wins where present); on save success the merged document becomes the file
content and the cache; on save failure it returns `false` and leaves the
in-memory cache exactly as the inner `get_config` read left it, so the
attempted merge is never observable through the cache. -/
theorem update_config_merge_and_failure (fs : Option CfgFile) (st : CfgSt)
    (updates : JObj) (newMtime : Nat) :
    (∀ k, jlookup (mergeDicts (get_config fs st).1 updates) k
        = (jlookup updates k).or (jlookup (get_config fs st).1 k)) ∧
    update_config fs st updates true newMtime
      = (true,
         some { mtime := newMtime,
                content := some (mergeDicts (get_config fs st).1 updates) },
         { cached := some (mergeDicts (get_config fs st).1 updates),
           mtimeSeen := some newMtime }) ∧
    update_config fs st updates false newMtime
      = (false, fs, (get_config fs st).2) :=
  ⟨fun k => jlookup_mergeDicts (get_config fs st).1 updates k, rfl, rfl⟩

/-- A concrete models-cache document, as loaded into the cache. -/
def mdoc1 : JObj :=
  [("models", .jarr [.jstr "m1"]), ("lastUpdated", .jnum 1)]

/-- A different models-cache document, as rewritten on disk afterwards. -/
def mdoc2 : JObj :=
  [("models", .jarr [.jstr "m2"]), ("lastUpdated", .jnum 2)]

/-- C5 counterexample: the models cache does NOT follow the reload-on-mtime
pattern.  With `mdoc1` loaded into the cache and the backing file externally
changed to `mdoc2` (new mtime 2, new content), the next `get_models_cache`
still returns the stale `mdoc1`, not the new file content. -/
theorem models_cache_ignores_file_change :
    (get_models_cache (some { mtime := 2, content := some mdoc2 }) (some mdoc1)).1
      = mdoc1 ∧ mdoc1 ≠ mdoc2 := by
  refine ⟨rfl, fun h => ?_⟩
  have h1 : jlookup mdoc1 "lastUpdated" = some (.jnum 1) := rfl
  have h2 : jlookup mdoc2 "lastUpdated" = some (.jnum 2) := rfl
  rw [h] at h1
  injection h1.symm.trans h2 with h3
  injection h3 with h4
  exact absurd h4 (by decide)

/-- C5 amended: once loaded, the cached models document is returned
unconditionally — the backing file (and its modification time) is never
consulted again, so external changes are not observed; on a miss (no cache
and a missing or unusable file) the result is `{models: [], lastUpdated:
None}` and the cache stays empty. -/
theorem models_cache_sticky_and_empty_miss :
    (∀ (file : Option MFile) (d : JObj), get_models_cache file (some d) = (d, some d)) ∧
    get_models_cache none none = (models_empty, none) ∧
    (∀ mt : Nat, get_models_cache (some { mtime := mt, content := none }) none
        = (models_empty, none)) ∧
    jlookup models_empty "models" = some (.jarr []) ∧
    jlookup models_empty "lastUpdated" = some .jnull :=
  ⟨fun _ _ => rfl, rfl, fun _ => rfl, rfl, rfl⟩

/-- C9: `add_saved_config` is not atomic on persistence failure.  With a
populated in-memory presets list `l`, a failing save makes it return `None`
(failure), yet the appended list is already visible through the cache
(Python aliasing of the mutated list object), so a subsequent
`get_saved_configs` still yields the preset that was reported as not
saved. -/
theorem add_preset_failure_leaves_appended_cache (file : SavedFile)
    (l : List JObj) (nowMs : Nat) (rand6 name provider model akev : String) :
    add_saved_config file (some l) nowMs rand6 name provider model akev false
      = (none, file, some (l ++ [new_preset nowMs rand6 name provider model akev])) ∧
    (get_saved_configs file
        (some (l ++ [new_preset nowMs rand6 name provider model akev]))).1
      = l ++ [new_preset nowMs rand6 name provider model akev] ∧
    new_preset nowMs rand6 name provider model akev
      ∈ (get_saved_configs file
          (some (l ++ [new_preset nowMs rand6 name provider model akev]))).1 := by
  refine ⟨rfl, rfl, ?_⟩
  exact List.mem_append_right l (List.mem_singleton_self _)

/-- C2: `classify_error` is a pure function applying its rules in order with
first match winning.  Any failure whose lowercased message contains both
"invalid" and "api key" and matches no network rule (neither an exact
network code nor a 503 substring) is classified (401, authentication_error)
— the authentication rule fires before the invalid_request rule ever gets
looked at — and a failure matching no rule at all is classified
(500, internal_server_error). -/
theorem classify_error_order_sensitive :
    (∀ (message code : String),
        network_codes.contains code = false →
        containsAny (strLower message) network_terms = false →
        strContains (strLower message) "invalid" = true →
        strContains (strLower message) "api key" = true →
        classify_error message code = (401, "authentication_error")) ∧
    (∀ (message code : String),
        network_codes.contains code = false →
        containsAny (strLower message) network_terms = false →
        containsAny (strLower message) auth_terms = false →
        containsAny (strLower message) permission_terms = false →
        containsAny (strLower message) rate_terms = false →
        containsAny (strLower message) invalid_terms = false →
        strContains (strLower message) "not found" = false →
        classify_error message code = (500, "internal_server_error")) := by
  constructor
  · intro message code hc hn _ hkey
    have hc' : code ∉ network_codes := by simpa using hc
    have hauth : containsAny (strLower message) auth_terms = true := by
      unfold containsAny auth_terms
      simp only [List.any_eq_true]
      exact ⟨"api key", by simp, hkey⟩
    simp [classify_error, hc', hn, hauth]
  · intro message code hc hn ha hp hr hi hnf
    have hc' : code ∉ network_codes := by simpa using hc
    simp [classify_error, hc', hn, ha, hp, hr, hi, hnf]

/-- Witness for C2 at the concrete messages "Invalid API key provided"
(matching both the 401 and 400 rules) and "Something unexpected happened"
(matching no rule). -/
theorem classify_error_order_sensitive_witness :
    classify_error "Invalid API key provided" "" = (401, "authentication_error") ∧
    classify_error "Something unexpected happened" "" = (500, "internal_server_error") :=
  ⟨classify_error_order_sensitive.1 "Invalid API key provided" ""
      (by decide) (by decide) (by decide) (by decide),
    classify_error_order_sensitive.2 "Something unexpected happened" ""
      (by decide) (by decide) (by decide) (by decide) (by decide) (by decide) (by decide)⟩

/-- Requests with a missing, empty, or whitespace-only `model` make
`validate_request` fail (with the missing-body message when the body is
empty, else with the model message). -/
theorem validate_request_bad_model (body : JObj)
    (h : jlookup body "model" = none ∨
      ∃ s, jlookup body "model" = some (.jstr s) ∧ pyStrip s = "") :
    ∃ m, validate_request body = .error m := by
  by_cases hb : body.isEmpty
  · exact ⟨"Request body is required", by simp [validate_request, hb]⟩
  · refine ⟨"model field is required", ?_⟩
    rcases h with h | ⟨s, hs, hstrip⟩
    · have hd : jgetD body "model" .jnull = .jnull := by simp [jgetD, h]
      simp [validate_request, hb, hd]
    · have hd : jgetD body "model" .jnull = .jstr s := by simp [jgetD, hs]
      simp [validate_request, hb, hd, hstrip]

/-- C4: with the emulator active, every request whose body lacks a `model`
field, or whose `model` is an empty or whitespace-only string, gets status
400 with error type invalid_request_error, and the Completion capability is
never invoked (the issued chat call is `none`).  (While the emulator is
inactive every request is instead rejected 503 before validation, per the
gating claim.) -/
theorem missing_model_rejected_400 (config : JObj) (nowMs : Nat)
    (rand7 : String) (body : JObj) (chatOutcome : Except PyErr ChatRes)
    (h : jlookup body "model" = none ∨
      ∃ s, jlookup body "model" = some (.jstr s) ∧ pyStrip s = "") :
    (handle_chat_completion true config nowMs rand7 body chatOutcome).1.statusCode = 400 ∧
    (handle_chat_completion true config nowMs rand7 body chatOutcome).1.errorType
      = some "invalid_request_error" ∧
    (handle_chat_completion true config nowMs rand7 body chatOutcome).2 = none := by
  obtain ⟨m, hm⟩ := validate_request_bad_model body h
  refine ⟨?_, ?_, ?_⟩ <;>
    simp [handle_chat_completion, hm, create_error_response, Response.errorType]

/-- Witness for C4 at a body whose `model` is a three-space string. -/
theorem missing_model_rejected_400_witness :
    (handle_chat_completion true [] 0 "abcdefg" [("model", .jstr "   ")]
        (.ok { text := "x", usage := none })).1.statusCode = 400 ∧
    (handle_chat_completion true [] 0 "abcdefg" [("model", .jstr "   ")]
        (.ok { text := "x", usage := none })).1.errorType
      = some "invalid_request_error" ∧
    (handle_chat_completion true [] 0 "abcdefg" [("model", .jstr "   ")]
        (.ok { text := "x", usage := none })).2 = none :=
  missing_model_rejected_400 [] 0 "abcdefg" [("model", .jstr "   ")]
    (.ok { text := "x", usage := none })
    (Or.inr ⟨"   ", rfl, by decide⟩)

/-- The prompt estimate as the claim words it (spec refinement side, not
from the source): the sum over the input messages of
`ceil(length(content) / 4)`, each message's content estimated separately. -/
def spec_prompt_tokens_summed (input_messages : List JObj) : Nat :=
  (input_messages.map (fun m =>
    estimate_tokens
      (match jlookup m "content" with
       | some (.jstr s) => s
       | _ => ""))).sum

/-- A request body with two single-character message contents. -/
def c1_body : JObj :=
  [("model", .jstr "m"),
   ("messages", .jarr
     [.jobj [("role", .jstr "user"), ("content", .jstr "a")],
      .jobj [("role", .jstr "user"), ("content", .jstr "a")]])]

/-- C1 counterexample: on a request with two messages of content "a" and a
backend result with text "x" and no usage report, the 200 response carries
prompt_tokens 1 — the handler estimates over the space-joined contents
"a a" (3 characters) — while the claimed per-message sum of ceilings is 2.
-/
theorem usage_estimate_not_per_message :
    (handle_chat_completion true [] 0 "abcdefg" c1_body
        (.ok { text := "x", usage := none })).1.statusCode = 200 ∧
    (handle_chat_completion true [] 0 "abcdefg" c1_body
        (.ok { text := "x", usage := none })).1.usageBlock
      = some { prompt_tokens := 1, completion_tokens := 1, total_tokens := 2 } ∧
    spec_prompt_tokens_summed (inputMessagesOf c1_body) = 2 ∧
    (handle_chat_completion true [] 0 "abcdefg" c1_body
        (.ok { text := "x", usage := none })).1.usageBlock.map
        (fun u => u.prompt_tokens)
      ≠ some (spec_prompt_tokens_summed (inputMessagesOf c1_body)) :=
  ⟨rfl, rfl, rfl, by decide⟩

/-- C1 amended: for every chat-completion request that succeeds with a
backend result carrying no usage report, the usage block of the 200
response has prompt_tokens equal to `ceil(length(joined) / 4)` where
`joined` is the space-join of the message contents (0 when `joined` is
empty), completion_tokens equal to `ceil(length(returned text) / 4)`, and
total_tokens equal to their sum; the per-message ceilings are not summed
individually. -/
theorem usage_estimated_from_joined_contents (config : JObj) (nowMs : Nat)
    (rand7 : String) (body : JObj) (t pt : String)
    (hval : validate_request body = .ok ())
    (hjoin : joinedContents (inputMessagesOf body) = some pt) :
    (handle_chat_completion true config nowMs rand7 body
        (.ok { text := t, usage := none })).1
      = { statusCode := 200,
          body := .completion (generate_completion_id nowMs rand7)
            "chat.completion" (nowMs / 1000) (jgetD body "model" (.jstr ""))
            [{ index := 0, role := "assistant", content := t,
               finish_reason := "stop" }]
            { prompt_tokens := estimate_tokens pt,
              completion_tokens := estimate_tokens t,
              total_tokens := estimate_tokens pt + estimate_tokens t } } := by
  simp [handle_chat_completion, hval, computeUsage, hjoin]

/-- Witness for C1 (amended) at a one-message request with content "hi"
and returned text "hey". -/
theorem usage_estimated_from_joined_contents_witness :
    (handle_chat_completion true [] 7 "abcdefg"
        [("model", .jstr "m"),
         ("messages", .jarr [.jobj [("role", .jstr "user"), ("content", .jstr "hi")]])]
        (.ok { text := "hey", usage := none })).1
      = { statusCode := 200,
          body := .completion (generate_completion_id 7 "abcdefg")
            "chat.completion" 0 (.jstr "m")
            [{ index := 0, role := "assistant", content := "hey",
               finish_reason := "stop" }]
            { prompt_tokens := estimate_tokens "hi",
              completion_tokens := estimate_tokens "hey",
              total_tokens := estimate_tokens "hi" + estimate_tokens "hey" } } :=
  usage_estimated_from_joined_contents [] 7 "abcdefg"
    [("model", .jstr "m"),
     ("messages", .jarr [.jobj [("role", .jstr "user"), ("content", .jstr "hi")]])]
    "hey" "hi" rfl rfl

/-- C6: for an existing preset id, `update_saved_config` called with `name`,
`provider`, `model` all `None` and `api_key_env_var` the empty string leaves
the preset's name/provider/model unchanged while overwriting its
apiKeyEnvVar to the empty string (the other presets are untouched, the first
match being the one updated); for an id matching no stored preset it
fails. -/
theorem update_preset_empty_api_key_only (file : SavedFile)
    (configs : List JObj) (config_id : String) :
    (configs.find? (fun c => presetIdMatches c config_id) = none →
      ∀ saveOk, update_saved_config file (some configs) config_id
          none none none (some "") saveOk
        = (false, file, some configs)) ∧
    (∀ c, configs.find? (fun c₀ => presetIdMatches c₀ config_id) = some c →
      update_saved_config file (some configs) config_id
          none none none (some "") true
        = (true,
           some (some (updateFirst (fun c₀ => presetIdMatches c₀ config_id)
             (fun c₀ => jset c₀ "apiKeyEnvVar" (.jstr "")) configs)),
           some (updateFirst (fun c₀ => presetIdMatches c₀ config_id)
             (fun c₀ => jset c₀ "apiKeyEnvVar" (.jstr "")) configs)) ∧
      jlookup (jset c "apiKeyEnvVar" (.jstr "")) "name" = jlookup c "name" ∧
      jlookup (jset c "apiKeyEnvVar" (.jstr "")) "provider" = jlookup c "provider" ∧
      jlookup (jset c "apiKeyEnvVar" (.jstr "")) "model" = jlookup c "model" ∧
      jlookup (jset c "apiKeyEnvVar" (.jstr "")) "apiKeyEnvVar" = some (.jstr "")) := by
  constructor
  · intro h saveOk
    simp [update_saved_config, get_saved_configs, h]
  · intro c hc
    have he : applyPresetUpdates none none none (some "")
        = fun c₀ => jset c₀ "apiKeyEnvVar" (.jstr "") := rfl
    refine ⟨?_, ?_, ?_, ?_, ?_⟩
    · simp [update_saved_config, get_saved_configs, hc, he]
    · exact jlookup_jset_ne c "apiKeyEnvVar" "name" (.jstr "") (by decide)
    · exact jlookup_jset_ne c "apiKeyEnvVar" "provider" (.jstr "") (by decide)
    · exact jlookup_jset_ne c "apiKeyEnvVar" "model" (.jstr "") (by decide)
    · exact jlookup_jset_self c "apiKeyEnvVar" (.jstr "")

/-- A concrete stored preset for the C6 witness. -/
def c6_preset : JObj :=
  [("id", .jstr "cfg-1-aaaaaa"), ("name", .jstr "n"),
   ("provider", .jstr "openai"), ("model", .jstr "gpt-4"),
   ("apiKeyEnvVar", .jstr "OPENAI_API_KEY")]

/-- Witness for C6: updating the stored preset `c6_preset` by id with all
fields `None` except an empty-string api-key-env-var, and failing on an
unknown id. -/
theorem update_preset_empty_api_key_only_witness :
    (update_saved_config none (some [c6_preset]) "cfg-1-aaaaaa"
        none none none (some "") true
      = (true,
         some (some (updateFirst (fun c₀ => presetIdMatches c₀ "cfg-1-aaaaaa")
           (fun c₀ => jset c₀ "apiKeyEnvVar" (.jstr "")) [c6_preset])),
         some (updateFirst (fun c₀ => presetIdMatches c₀ "cfg-1-aaaaaa")
           (fun c₀ => jset c₀ "apiKeyEnvVar" (.jstr "")) [c6_preset])) ∧
      jlookup (jset c6_preset "apiKeyEnvVar" (.jstr "")) "name"
        = jlookup c6_preset "name" ∧
      jlookup (jset c6_preset "apiKeyEnvVar" (.jstr "")) "provider"
        = jlookup c6_preset "provider" ∧
      jlookup (jset c6_preset "apiKeyEnvVar" (.jstr "")) "model"
        = jlookup c6_preset "model" ∧
      jlookup (jset c6_preset "apiKeyEnvVar" (.jstr "")) "apiKeyEnvVar"
        = some (.jstr "")) ∧
    update_saved_config none (some [c6_preset]) "nope"
        none none none (some "") true
      = (false, none, some [c6_preset]) :=
  ⟨(update_preset_empty_api_key_only none [c6_preset] "cfg-1-aaaaaa").2
      c6_preset rfl,
    (update_preset_empty_api_key_only none [c6_preset] "nope").1 rfl true⟩

/-! ## The `cfg-<digits>-<6 lowercase-alnum>` id pattern -/

/-- A character from `string.ascii_lowercase + string.digits`. -/
def isLowerAlnumChar (c : Char) : Bool :=
  c.isLower || c.isDigit

/-- Checks `<digits>-<6 lowercase-alnum>`: a non-empty leading run of digits,
a dash, and exactly six lowercase-alphanumeric characters. -/
def tailMatchesPresetId (l : List Char) : Bool :=
  let ds := l.takeWhile Char.isDigit
  let rest := l.dropWhile Char.isDigit
  !ds.isEmpty &&
    (match rest with
     | '-' :: rs => rs.length == 6 && rs.all isLowerAlnumChar
     | _ => false)

/-- The preset id pattern `cfg-<digits>-<6 lowercase-alnum>`. -/
def matchesPresetIdPattern (s : String) : Bool :=
  match s.data with
  | 'c' :: 'f' :: 'g' :: '-' :: rest => tailMatchesPresetId rest
  | _ => false

theorem digitChar_isDigit (m : Nat) (h : m < 10) :
    (Nat.digitChar m).isDigit = true := by
  interval_cases m <;> decide

theorem toDigitsCore_all_digits :
    ∀ (fuel n : Nat) (ds : List Char), (∀ c ∈ ds, c.isDigit = true) →
      ∀ c ∈ Nat.toDigitsCore 10 fuel n ds, c.isDigit = true := by
  intro fuel
  induction fuel with
  | zero =>
    intro n ds hds c hc
    simp only [Nat.toDigitsCore] at hc
    exact hds c hc
  | succ f ih =>
    intro n ds hds c hc
    simp only [Nat.toDigitsCore] at hc
    have hd : (Nat.digitChar (n % 10)).isDigit = true :=
      digitChar_isDigit _ (Nat.mod_lt _ (by norm_num))
    have hds' : ∀ c ∈ Nat.digitChar (n % 10) :: ds, c.isDigit = true := by
      intro c' hc'
      rcases List.mem_cons.mp hc' with h' | h'
      · exact h' ▸ hd
      · exact hds c' h'
    by_cases h : n / 10 = 0
    · rw [if_pos h] at hc
      exact hds' c hc
    · rw [if_neg h] at hc
      exact ih _ _ hds' c hc

theorem toDigitsCore_length_ge :
    ∀ (fuel n : Nat) (ds : List Char), fuel ≠ 0 →
      ds.length + 1 ≤ (Nat.toDigitsCore 10 fuel n ds).length := by
  intro fuel
  induction fuel with
  | zero => intro n ds h; exact absurd rfl h
  | succ f ih =>
    intro n ds _
    simp only [Nat.toDigitsCore]
    by_cases h : n / 10 = 0
    · rw [if_pos h]; simp
    · rw [if_neg h]
      cases f with
      | zero => simp [Nat.toDigitsCore]
      | succ f' =>
        have h2 := ih (n / 10) (Nat.digitChar (n % 10) :: ds) (Nat.succ_ne_zero f')
        simp only [List.length_cons] at h2
        omega

theorem toString_nat_all_digits (n : Nat) :
    ∀ c ∈ (toString n).data, c.isDigit = true := by
  intro c hc
  exact toDigitsCore_all_digits (n + 1) n [] (by simp) c hc

theorem toString_nat_ne_nil (n : Nat) : (toString n).data ≠ [] := by
  intro h
  have h2 := toDigitsCore_length_ge (n + 1) n [] (Nat.succ_ne_zero n)
  rw [show (toString n).data = Nat.toDigitsCore 10 (n + 1) n [] from rfl] at h
  rw [h] at h2
  simp at h2

theorem takeWhile_append_all (p : Char → Bool) (l₂ : List Char) :
    ∀ l₁ : List Char, (∀ c ∈ l₁, p c = true) →
      (l₁ ++ l₂).takeWhile p = l₁ ++ l₂.takeWhile p
  | [], _ => by simp
  | c :: rest, h => by
    have hc : p c = true := h c (List.mem_cons_self c rest)
    have ih := takeWhile_append_all p l₂ rest
      (fun c' hc' => h c' (List.mem_cons_of_mem c hc'))
    simp [List.takeWhile_cons, hc, ih]

theorem dropWhile_append_all (p : Char → Bool) (l₂ : List Char) :
    ∀ l₁ : List Char, (∀ c ∈ l₁, p c = true) →
      (l₁ ++ l₂).dropWhile p = l₂.dropWhile p
  | [], _ => by simp
  | c :: rest, h => by
    have hc : p c = true := h c (List.mem_cons_self c rest)
    have ih := dropWhile_append_all p l₂ rest
      (fun c' hc' => h c' (List.mem_cons_of_mem c hc'))
    simp [List.dropWhile_cons, hc, ih]

/-- Every generated preset id matches `cfg-<digits>-<6 lowercase-alnum>`,
for any timestamp and any 6 lowercase-alphanumeric random characters. -/
theorem generate_id_matches_pattern (nowMs : Nat) (rand6 : String)
    (hlen : rand6.length = 6)
    (hchars : ∀ c ∈ rand6.data, isLowerAlnumChar c = true) :
    matchesPresetIdPattern (generate_id nowMs rand6) = true := by
  have hdata : (generate_id nowMs rand6).data
      = 'c' :: 'f' :: 'g' :: '-' :: ((toString nowMs).data ++ ('-' :: rand6.data)) := by
    show ("cfg-" ++ toString nowMs ++ "-" ++ rand6).data = _
    simp [String.data_append]
  unfold matchesPresetIdPattern
  rw [hdata]
  show tailMatchesPresetId ((toString nowMs).data ++ ('-' :: rand6.data)) = true
  unfold tailMatchesPresetId
  have hdig := toString_nat_all_digits nowMs
  rw [takeWhile_append_all Char.isDigit _ _ hdig,
    dropWhile_append_all Char.isDigit _ _ hdig]
  have hdash : Char.isDigit '-' = false := rfl
  have hempty : ((toString nowMs).data).isEmpty = false := by
    cases hq : (toString nowMs).data with
    | nil => exact absurd hq (toString_nat_ne_nil nowMs)
    | cons a l => rfl
  have hlen' : rand6.data.length = 6 := hlen
  simp [List.takeWhile_cons, List.dropWhile_cons, hdash, hempty,
    List.all_eq_true, hlen']
  exact hchars

/-! ## `find?` and `filter` helpers for the preset list -/

theorem find?_of_fresh_append (p : JObj → Bool) (l : List JObj) (x : JObj)
    (hl : ∀ c ∈ l, p c = false) (hx : p x = true) :
    (l ++ [x]).find? p = some x := by
  rw [List.find?_append]
  have h1 : l.find? p = none :=
    List.find?_eq_none.mpr (fun c hc => by simp [hl c hc])
  rw [h1]
  simp [List.find?_cons, hx]

theorem find?_filter_not_none (p : JObj → Bool) (l : List JObj) :
    (l.filter (fun c => !(p c))).find? p = none := by
  apply List.find?_eq_none.mpr
  intro x hx
  have h := (List.mem_filter.mp hx).2
  simp only [Bool.not_eq_true'] at h
  simp [h]

theorem filter_append_singleton_length (p : JObj → Bool) (l : List JObj)
    (x : JObj) (hx : p x = true) :
    ((l ++ [x]).filter (fun c => !(p c))).length ≠ (l ++ [x]).length := by
  rw [List.filter_append]
  have h1 : [x].filter (fun c => !(p c)) = [] := by simp [hx]
  rw [h1]
  have h2 := List.length_filter_le (fun c => !(p c)) l
  simp only [List.append_nil, List.length_append, List.length_singleton]
  omega

/-- The freshly built preset's id equals the generated id. -/
theorem new_preset_id_matches (nowMs : Nat) (rand6 name provider model akev : String) :
    presetIdMatches (new_preset nowMs rand6 name provider model akev)
      (generate_id nowMs rand6) = true := by
  simp [presetIdMatches, new_preset, jlookup]

/-- C8: the preset round-trip.  `add_saved_config "n" "openai" "gpt-4"
"OPENAI_API_KEY"` (with a successful save) returns the new preset, whose id
matches `cfg-<digits>-<6 lowercase-alnum>`; `get_saved_config_by_id` on that
id then returns exactly that record; after `delete_saved_config` of the id,
`get_saved_config_by_id` returns `none`.  The random part is assumed to
consist of 6 lowercase-alphanumeric characters (as `generate_id` draws them)
and the generated id to be fresh among the stored presets. -/
theorem preset_roundtrip (file : SavedFile) (configs : List JObj)
    (nowMs : Nat) (rand6 : String)
    (hlen : rand6.length = 6)
    (hchars : ∀ c ∈ rand6.data, isLowerAlnumChar c = true)
    (hfresh : ∀ c ∈ configs, presetIdMatches c (generate_id nowMs rand6) = false) :
    let gid := generate_id nowMs rand6
    let newC := new_preset nowMs rand6 "n" "openai" "gpt-4" "OPENAI_API_KEY"
    let stored := configs ++ [newC]
    let remaining := stored.filter (fun c => !(presetIdMatches c gid))
    matchesPresetIdPattern gid = true ∧
    add_saved_config file (some configs) nowMs rand6
        "n" "openai" "gpt-4" "OPENAI_API_KEY" true
      = (some newC, some (some stored), some stored) ∧
    (get_saved_config_by_id (some (some stored)) (some stored) gid).1 = some newC ∧
    delete_saved_config (some (some stored)) (some stored) gid true
      = (true, some (some remaining), some remaining) ∧
    (get_saved_config_by_id (some (some remaining)) (some remaining) gid).1 = none := by
  intro gid newC stored remaining
  have hid : presetIdMatches newC gid = true :=
    new_preset_id_matches nowMs rand6 "n" "openai" "gpt-4" "OPENAI_API_KEY"
  refine ⟨generate_id_matches_pattern nowMs rand6 hlen hchars, rfl, ?_, ?_, ?_⟩
  · show stored.find? (fun c => presetIdMatches c gid) = some newC
    exact find?_of_fresh_append _ _ _ hfresh hid
  · have h1 : (List.filter (fun c => !presetIdMatches c gid) [newC]).length = 0 := by
      simp [hid]
    have h2 := List.length_filter_le (fun c => !presetIdMatches c gid) configs
    simp [delete_saved_config, get_saved_configs, remaining, stored]
    omega
  · show remaining.find? (fun c => presetIdMatches c gid) = none
    exact find?_filter_not_none _ _

/-- Witness for C8 at timestamp 5, random part "abc123", starting from an
empty preset store. -/
theorem preset_roundtrip_witness :
    matchesPresetIdPattern (generate_id 5 "abc123") = true ∧
    add_saved_config none (some []) 5 "abc123"
        "n" "openai" "gpt-4" "OPENAI_API_KEY" true
      = (some (new_preset 5 "abc123" "n" "openai" "gpt-4" "OPENAI_API_KEY"),
         some (some [new_preset 5 "abc123" "n" "openai" "gpt-4" "OPENAI_API_KEY"]),
         some [new_preset 5 "abc123" "n" "openai" "gpt-4" "OPENAI_API_KEY"]) ∧
    (get_saved_config_by_id
        (some (some [new_preset 5 "abc123" "n" "openai" "gpt-4" "OPENAI_API_KEY"]))
        (some [new_preset 5 "abc123" "n" "openai" "gpt-4" "OPENAI_API_KEY"])
        (generate_id 5 "abc123")).1
      = some (new_preset 5 "abc123" "n" "openai" "gpt-4" "OPENAI_API_KEY") ∧
    delete_saved_config
        (some (some [new_preset 5 "abc123" "n" "openai" "gpt-4" "OPENAI_API_KEY"]))
        (some [new_preset 5 "abc123" "n" "openai" "gpt-4" "OPENAI_API_KEY"])
        (generate_id 5 "abc123") true
      = (true,
         some (some ([new_preset 5 "abc123" "n" "openai" "gpt-4" "OPENAI_API_KEY"].filter
           (fun c => !(presetIdMatches c (generate_id 5 "abc123"))))),
         some ([new_preset 5 "abc123" "n" "openai" "gpt-4" "OPENAI_API_KEY"].filter
           (fun c => !(presetIdMatches c (generate_id 5 "abc123"))))) ∧
    (get_saved_config_by_id
        (some (some ([new_preset 5 "abc123" "n" "openai" "gpt-4" "OPENAI_API_KEY"].filter
          (fun c => !(presetIdMatches c (generate_id 5 "abc123"))))))
        (some ([new_preset 5 "abc123" "n" "openai" "gpt-4" "OPENAI_API_KEY"].filter
          (fun c => !(presetIdMatches c (generate_id 5 "abc123")))))
        (generate_id 5 "abc123")).1
      = none :=
  preset_roundtrip none [] 5 "abc123" (by decide) (by decide) (by simp)

end ModelEmulator
